import Mathlib

/-!
Verification of the Mindease RAG core against its specification.

The persisted data model is embedded from the database schema
(tables documents, document_embeddings, conversations, conversation_messages,
rag_feedback, feedback_analytics, chat_settings). Nullable columns become
Option fields; NOT NULL columns become plain fields; column defaults are
applied by explicit store functions. The service layer (embedding, indexing,
retrieval, crisis detection, orchestration, feedback curation) is not part of
the provided sources, so those operations are modelled from the specification,
as marked on each definition.
-/

namespace Mindease

/-! ## Schema embedding -/

/-- Row of table documents: title, content NOT NULL; category, source,
doc_metadata, organization_id nullable (a document with no organization is
global). -/
structure DocumentRow where
  id : Nat
  title : String
  content : String
  category : Option String
  source : Option String
  doc_metadata : Option String
  organization_id : Option Nat
  created_at : Nat
  updated_at : Nat
deriving DecidableEq, Repr

/-- Row of table document_embeddings: one chunk of a document, with its
zero-based chunk_index, text, embedding vector (float8 array, modelled over
the rationals) and the embedding model identifier. -/
structure DocumentEmbeddingRow where
  id : Nat
  document_id : Nat
  chunk_index : Nat
  chunk_text : String
  embedding : List ℚ
  embedding_model : String
  created_at : Nat
deriving DecidableEq, Repr

/-- Row of table conversations. -/
structure ConversationRow where
  id : String
  user_id : Nat
  title : Option String
  language : String
  created_at : Nat
  updated_at : Nat
deriving DecidableEq, Repr

/-- Columns a client may supply when inserting into conversation_messages.
Columns with a schema default (crisis_detected default false, language
default en, created_at default now) may be omitted, which is modelled by
Option; nullable columns (sources, user_context) are Option in the row
itself. -/
structure ConversationMessageInsert where
  conversation_id : String
  user_id : Nat
  role : String
  content : String
  sources : Option String
  user_context : Option String
  crisis_detected : Option Bool
  language : Option String
deriving DecidableEq, Repr

/-- Stored row of table conversation_messages: crisis_detected and language
are NOT NULL, so the stored row holds definite values. -/
structure ConversationMessageRow where
  id : Nat
  conversation_id : String
  user_id : Nat
  role : String
  content : String
  sources : Option String
  user_context : Option String
  crisis_detected : Bool
  language : String
  created_at : Nat
deriving DecidableEq, Repr

/-- Applies the schema defaults of conversation_messages to an insert:
crisis_detected defaults to false, language defaults to en, created_at
defaults to the current time. -/
def storeConversationMessage (id now : Nat) (i : ConversationMessageInsert) :
    ConversationMessageRow :=
  { id := id
    conversation_id := i.conversation_id
    user_id := i.user_id
    role := i.role
    content := i.content
    sources := i.sources
    user_context := i.user_context
    crisis_detected := i.crisis_detected.getD false
    language := i.language.getD "en"
    created_at := now }

/-- Row of table rag_feedback. NOT NULL columns are id, conversation_id,
message_id, user_id, created_at and updated_at; every rating column, the
overall rating and the safety_concerns flag are nullable. -/
structure RagFeedbackRow where
  id : String
  conversation_id : String
  message_id : Nat
  user_id : Nat
  organization_id : Option Nat
  relevance_rating : Option Int
  helpfulness_rating : Option Int
  accuracy_rating : Option Int
  clarity_rating : Option Int
  safety_rating : Option Int
  overall_rating : Option ℚ
  feedback_text : Option String
  improvement_suggestions : Option String
  query_intent : Option String
  emotional_state : Option String
  crisis_level : Option String
  safety_concerns : Option Bool
  response_time_ms : Option Int
  documents_retrieved : Option Int
  retrieval_method : Option String
  model_version : Option String
  created_at : Nat
  updated_at : Nat
deriving DecidableEq, Repr

/-- Row of table feedback_analytics (one row per organization and date,
unique key uq_feedback_analytics_org_date). The jsonb rating distribution is
modelled as an association list from rating bucket to count. -/
structure FeedbackAnalyticsRow where
  id : String
  organization_id : Option Nat
  date : Nat
  total_feedback : Nat
  average_rating : Option ℚ
  safety_concern_count : Nat
  improvement_suggestion_count : Nat
  rating_distribution : List (Nat × Nat)
deriving DecidableEq, Repr

/-! ## Embedding service and document indexer -/

/-- The configured embedding model identifier (schema default of
document_embeddings.embedding_model and the Dockerfile documentation). -/
def embeddingModel : String := "all-MiniLM-L6-v2"

/-- The configured embedding dimension: 384 for all-MiniLM-L6-v2, per the
Dockerfile documentation. -/
def embedDim : Nat := 384

/-- Deterministic numeric code of a text, used by the modelled embedding. -/
def textCode (t : String) : Nat :=
  t.data.foldl (fun a c => a + c.toNat) 0

/-- Modelled from the spec: the Embedding Service (section 4.1) is not under
the provided sources; the spec fixes only that embed is a deterministic
function of the text returning a vector of the fixed configured dimension,
so the numeric content is abstracted as a deterministic function of the
text. -/
def embed (t : String) : List ℚ :=
  (List.range embedDim).map (fun i => ((textCode t + i : Nat) : ℚ))

/-- Configured chunk window (section 4.2: window 200). -/
def chunkWindow : Nat := 200

/-- Configured chunk overlap (section 4.2: overlap 50). -/
def chunkOverlap : Nat := 50

/-- Distance between the starts of consecutive chunks. -/
def chunkStep : Nat := chunkWindow - chunkOverlap

/-- Number of overlapping windows covering a text of the given length with
the given step: zero for the empty text, otherwise the least n with
n * step at or beyond the length. -/
def numChunks (step len : Nat) : Nat := (len + step - 1) / step

/-- Modelled from the spec: the Document Indexer split (section 4.2) is not
under the provided sources; the spec fixes it as a deterministic split into
overlapping windows of the configured length and overlap. Window i covers the
characters from i * step for window characters. -/
def splitText (window step : Nat) (t : String) : List String :=
  (List.range (numChunks step t.data.length)).map
    (fun i => String.mk ((t.data.drop (i * step)).take window))

/-- Builds the document_embeddings rows for the pieces of a split document,
assigning sequential ids from firstId and sequential chunk indices from
idx. -/
def mkChunks (firstId docId : Nat) (model : String) (now : Nat) :
    Nat → List String → List DocumentEmbeddingRow
  | _, [] => []
  | idx, txt :: rest =>
      { id := firstId + idx
        document_id := docId
        chunk_index := idx
        chunk_text := txt
        embedding := embed txt
        embedding_model := model
        created_at := now } :: mkChunks firstId docId model now (idx + 1) rest

/-- State of the document index: the documents table, the
document_embeddings table and the next fresh chunk id. -/
structure IndexState where
  documents : List DocumentRow
  chunks : List DocumentEmbeddingRow
  next_id : Nat
deriving DecidableEq, Repr

/-- Modelled from the spec: indexing and re-indexing (section 4.2) are not
under the provided sources. Indexing first deletes all prior chunks of the
document, then persists a full fresh split; the documents table is upserted
with the given document row. -/
def indexDocument (s : IndexState) (doc : DocumentRow) (now : Nat) : IndexState :=
  let pieces := splitText chunkWindow chunkStep doc.content
  { documents := (s.documents.filter (fun d => d.id ≠ doc.id)) ++ [doc]
    chunks := (s.chunks.filter (fun c => c.document_id ≠ doc.id)) ++
      mkChunks s.next_id doc.id embeddingModel now 0 pieces
    next_id := s.next_id + pieces.length }

/-- Modelled from the spec: document deletion cascades to the chunks of the
document (section 3, foreign key document_embeddings_document_id_fkey with
delete cascade). -/
def deleteDocument (s : IndexState) (docId : Nat) : IndexState :=
  { documents := s.documents.filter (fun d => d.id ≠ docId)
    chunks := s.chunks.filter (fun c => c.document_id ≠ docId)
    next_id := s.next_id }

/-- Index states reachable from the empty index by indexing, re-indexing and
deleting documents. -/
inductive ReachableIndex : IndexState → Prop
  | init : ReachableIndex { documents := [], chunks := [], next_id := 0 }
  | index (s : IndexState) (doc : DocumentRow) (now : Nat) :
      ReachableIndex s → ReachableIndex (indexDocument s doc now)
  | remove (s : IndexState) (docId : Nat) :
      ReachableIndex s → ReachableIndex (deleteDocument s docId)

/-- The chunks persisted for a given document, in stored order. -/
def docChunks (s : IndexState) (docId : Nat) : List DocumentEmbeddingRow :=
  s.chunks.filter (fun c => c.document_id = docId)

/-- The chunk boundaries persisted for a document: for each chunk its index
and its text. -/
def chunkBoundaries (s : IndexState) (docId : Nat) : List (Nat × String) :=
  (docChunks s docId).map (fun c => (c.chunk_index, c.chunk_text))

/-! ## Retrieval engine -/

/-- Dot product of two vectors, the similarity score of the modelled
retrieval (the spec allows cosine similarity or an equivalent monotone
transform). -/
def dotProduct : List ℚ → List ℚ → ℚ
  | a :: as, b :: bs => a * b + dotProduct as bs
  | _, _ => 0

/-- Whether a chunk is inside the organization scope of a retrieval call:
its document exists and is either global (no organization) or owned by the
calling organization. -/
def inScope (s : IndexState) (scope : Nat) (c : DocumentEmbeddingRow) : Bool :=
  match s.documents.find? (fun d => d.id = c.document_id) with
  | some d => d.organization_id = none ∨ d.organization_id = some scope
  | none => false

/-- The updated_at of the document owning a chunk, used as ranking tie
break. -/
def docUpdatedAt (s : IndexState) (docId : Nat) : Nat :=
  match s.documents.find? (fun d => d.id = docId) with
  | some d => d.updated_at
  | none => 0

/-- Ranking order of retrieval results: higher similarity first, ties broken
by most recent document updated_at, then by document id and chunk index
ascending (section 4.3). -/
def rankLE (s : IndexState) (q : List ℚ) (a b : DocumentEmbeddingRow) : Bool :=
  if dotProduct q a.embedding ≠ dotProduct q b.embedding then
    dotProduct q b.embedding < dotProduct q a.embedding
  else if docUpdatedAt s a.document_id ≠ docUpdatedAt s b.document_id then
    docUpdatedAt s b.document_id < docUpdatedAt s a.document_id
  else if a.document_id ≠ b.document_id then
    a.document_id < b.document_id
  else
    a.chunk_index ≤ b.chunk_index

/-- Insertion of an element into a list sorted by le. -/
def insertRanked {α : Type} (le : α → α → Bool) (x : α) : List α → List α
  | [] => [x]
  | y :: ys => if le x y then x :: y :: ys else y :: insertRanked le x ys

/-- Insertion sort by le. -/
def sortRanked {α : Type} (le : α → α → Bool) (l : List α) : List α :=
  l.foldr (insertRanked le) []

/-- Modelled from the spec: the Retrieval Engine (section 4.3) is not under
the provided sources. Candidates are restricted to the organization scope
before ranking, then sorted by similarity with deterministic tie breaks, and
the first k are returned. -/
def retrieve (s : IndexState) (q : List ℚ) (scope : Nat) (k : Nat) :
    List DocumentEmbeddingRow :=
  (sortRanked (rankLE s q) (s.chunks.filter (inScope s scope))).take k

/-- The organization of the document owning a chunk, when the document
exists: some none for a global document, some (some o) for a document owned
by organization o. -/
def docOrg (s : IndexState) (docId : Nat) : Option (Option Nat) :=
  (s.documents.find? (fun d => d.id = docId)).map (fun d => d.organization_id)

/-! ## Crisis detector -/

/-- Severity classification of the crisis detector. -/
inductive CrisisLevel
  | none
  | low
  | high
deriving DecidableEq, Repr

/-- Whether the first list of characters starts the second. -/
def startsWithChars : List Char → List Char → Bool
  | [], _ => true
  | _ :: _, [] => false
  | p :: ps, c :: cs => p = c && startsWithChars ps cs

/-- Whether the first list of characters occurs contiguously inside the
second. -/
def containsChars (pat : List Char) : List Char → Bool
  | [] => startsWithChars pat []
  | c :: cs => startsWithChars pat (c :: cs) || containsChars pat cs

/-- Normalizes text for signal matching: lower case, punctuation removed
(section 4.4: phrase matching with normalization for case and
punctuation). -/
def normalizeText (t : String) : List Char :=
  (t.data.map Char.toLower).filter (fun c => c.isAlphanum ∨ c = ' ')

/-- Modelled from the spec: the configurable crisis signal list (section 4.4)
is data, not code, and is not under the provided sources; this is a
representative configuration containing the phrase the testable properties of
section 8 fix. Any match escalates to high. -/
def highSignals : List String :=
  ["kill myself", "suicide", "end my life", "want to die"]

/-- Modelled from the spec: representative low severity signals (ambiguous
matches escalate to at least low, section 4.4). -/
def lowSignals : List String :=
  ["hopeless", "worthless", "self harm", "cant go on"]

/-- The signals of a list matched inside a text after normalization. -/
def matchedSignals (sigs : List String) (t : String) : List String :=
  sigs.filter (fun p => containsChars (normalizeText p) (normalizeText t))

/-- Modelled from the spec: the Crisis Detector classification (section 4.4),
a deterministic normalized phrase scan returning the severity and the
matched signals. -/
def classify (t : String) : CrisisLevel × List String :=
  let hi := matchedSignals highSignals t
  let lo := matchedSignals lowSignals t
  if hi ≠ [] then (CrisisLevel.high, hi)
  else if lo ≠ [] then (CrisisLevel.low, lo)
  else (CrisisLevel.none, [])

/-! ## Response orchestrator -/

/-- Result of a chat turn (section 6): response text, cited source document
ids, crisis flag and provenance mode. -/
structure TurnResult where
  response : String
  sources : List Nat
  crisis_detected : Bool
  mode : String
deriving DecidableEq, Repr

/-- The fixed safety resource response substituted on the crisis path. -/
def safetyResourceResponse : String :=
  "You are not alone, and support is available right now. Please reach out to your local emergency number or a crisis line such as 988 to talk with someone immediately."

/-- The deterministic rule based template used when the generation capability
is unavailable. -/
def fallbackResponse : String :=
  "I hear you. I am having trouble generating a detailed reply right now, but a slow breathing exercise can help: breathe in for four counts, hold for four, and breathe out for four."

/-- Number of chunks requested from retrieval by the orchestrator. -/
def topK : Nat := 5

/-- Prompt assembled from the windowed history, the retrieved chunk texts and
the user text. -/
def assemblePrompt (history : List ConversationMessageRow)
    (chunks : List DocumentEmbeddingRow) (userText : String) : String :=
  String.intercalate "\n" (history.map (fun m => m.content) ++
    chunks.map (fun c => c.chunk_text) ++ [userText])

/-- The draft of the safe path with its provenance mode: the generated text
when the generation capability answered, the rule based template with mode
rule_based_fallback when it failed or timed out (section 4.6). -/
def draftOrFallback (g : Option String) : String × String :=
  match g with
  | some d => (d, "rag")
  | none => (fallbackResponse, "rule_based_fallback")

/-- Modelled from the spec: the Response Orchestrator turn (section 4.6) is
not under the provided sources. A high classification of the input skips
retrieval and generation and returns the fixed safety resource response with
mode crisis; otherwise the query is embedded, chunks are retrieved inside the
organization scope, the generation capability (a black box, possibly failing)
is invoked and its draft, or the rule based fallback, is safety checked
before being returned. -/
def handleTurn (gen : String → Option String) (s : IndexState) (scope : Nat)
    (history : List ConversationMessageRow) (userText : String) : TurnResult :=
  if (classify userText).1 = CrisisLevel.high then
    { response := safetyResourceResponse
      sources := []
      crisis_detected := true
      mode := "crisis" }
  else
    let chunks := retrieve s (embed userText) scope topK
    let draft := draftOrFallback (gen (assemblePrompt history chunks userText))
    if (classify draft.1).1 = CrisisLevel.high then
      { response := safetyResourceResponse
        sources := chunks.map (fun c => c.document_id)
        crisis_detected := true
        mode := "crisis" }
    else
      { response := draft.1
        sources := chunks.map (fun c => c.document_id)
        crisis_detected := false
        mode := draft.2 }

/-! ## Conversation manager -/

/-- State of the conversation manager: a monotone server clock, the
conversations table and the conversation_messages table in stored order. -/
structure ChatStore where
  clock : Nat
  conversations : List ConversationRow
  messages : List ConversationMessageRow
deriving DecidableEq, Repr

/-- Modelled from the spec: the Conversation Manager append (section 4.5) is
not under the provided sources. Appends are serialized per store, stamped by
the monotone server clock (created_at default now), create the conversation
on its first message and bump updated_at of an existing conversation. -/
def appendMessage (s : ChatStore) (dt : Nat) (i : ConversationMessageInsert) :
    ChatStore :=
  let t := s.clock + dt
  let row := storeConversationMessage (s.messages.length + 1) t i
  { clock := t
    conversations :=
      if s.conversations.any (fun c => c.id = i.conversation_id) then
        s.conversations.map (fun c =>
          if c.id = i.conversation_id then { c with updated_at := t } else c)
      else
        s.conversations ++
          [{ id := i.conversation_id
             user_id := i.user_id
             title := none
             language := i.language.getD "en"
             created_at := t
             updated_at := t }]
    messages := s.messages ++ [row] }

/-- Chat stores reachable from an empty store by serialized appends; the
clock advances by an arbitrary nonnegative amount at each append. -/
inductive ReachableChat : ChatStore → Prop
  | init (n0 : Nat) : ReachableChat { clock := n0, conversations := [], messages := [] }
  | append (s : ChatStore) (dt : Nat) (i : ConversationMessageInsert) :
      ReachableChat s → ReachableChat (appendMessage s dt i)

/-- The windowed history of a conversation: the most recent maxMessages
messages in chronological order (section 4.5). -/
def historyWindow (s : ChatStore) (cid : String) (maxMessages : Nat) :
    List ConversationMessageRow :=
  ((s.messages.filter (fun m => m.conversation_id = cid)).reverse.take maxMessages).reverse

/-! ## Feedback and training curator -/

/-- A feedback submission (section 6): the referenced message and its
conversation, the five sub ratings and optional free text. -/
structure FeedbackSubmission where
  conversation_id : String
  message_id : Nat
  user_id : Nat
  organization_id : Option Nat
  relevance : Int
  helpfulness : Int
  accuracy : Int
  clarity : Int
  safety : Int
  feedback_text : Option String
deriving DecidableEq, Repr

/-- The configured low threshold at or below which the safety sub rating
raises the safety concern flag (section 4.7). -/
def safetyLowThreshold : Int := 2

/-- Modelled from the spec: the overall rating computation (section 4.7) is
not under the provided sources; the spec fixes it as a deterministic weighted
mean of the five sub ratings with safety weighted most heavily. -/
def computeOverallRating (relevance helpfulness accuracy clarity safety : Int) : ℚ :=
  ((relevance : ℚ) + (helpfulness : ℚ) + (accuracy : ℚ) + (clarity : ℚ) +
    2 * (safety : ℚ)) / 6

/-- Modelled from the spec: submitFeedback (section 4.7) is not under the
provided sources. It stores the submission as a rag_feedback row, deriving
overall_rating from the five sub ratings alone and safety_concerns from the
safety sub rating alone. -/
def submitFeedback (id : String) (now : Nat) (f : FeedbackSubmission) :
    RagFeedbackRow :=
  { id := id
    conversation_id := f.conversation_id
    message_id := f.message_id
    user_id := f.user_id
    organization_id := f.organization_id
    relevance_rating := some f.relevance
    helpfulness_rating := some f.helpfulness
    accuracy_rating := some f.accuracy
    clarity_rating := some f.clarity
    safety_rating := some f.safety
    overall_rating := some
      (computeOverallRating f.relevance f.helpfulness f.accuracy f.clarity f.safety)
    feedback_text := f.feedback_text
    improvement_suggestions := none
    query_intent := none
    emotional_state := none
    crisis_level := none
    safety_concerns := some (decide (f.safety ≤ safetyLowThreshold))
    response_time_ms := none
    documents_retrieved := none
    retrieval_method := none
    model_version := some embeddingModel
    created_at := now
    updated_at := now }

/-- Calendar date of a timestamp, in days. -/
def dateOf (ts : Nat) : Nat := ts / 86400

/-- State of the feedback curator: the immutable rag_feedback rows and the
derived feedback_analytics rows. -/
structure CuratorState where
  feedback : List RagFeedbackRow
  analytics : List FeedbackAnalyticsRow
deriving DecidableEq, Repr

/-- The feedback rows of one organization on one date. -/
def feedbackFor (rows : List RagFeedbackRow) (org : Option Nat) (d : Nat) :
    List RagFeedbackRow :=
  rows.filter (fun r => r.organization_id = org ∧ dateOf r.created_at = d)

/-- Count of feedback rows whose overall rating rounds down into the given
bucket. -/
def ratingBucketCount (rows : List RagFeedbackRow) (b : Nat) : Nat :=
  (rows.filter (fun r => r.overall_rating.map Rat.floor = some (b : Int))).length

/-- Deterministic id of the analytics row of an organization and date. -/
def analyticsId (org : Option Nat) (d : Nat) : String :=
  String.intercalate "-" ["analytics", toString (org.getD 0), toString d]

/-- The feedback_analytics row derived purely from the rag_feedback rows of
one organization and date (section 4.7). -/
def computeAnalyticsRow (org : Option Nat) (d : Nat)
    (rows : List RagFeedbackRow) : FeedbackAnalyticsRow :=
  let fs := feedbackFor rows org d
  let rated := fs.filterMap (fun r => r.overall_rating)
  { id := analyticsId org d
    organization_id := org
    date := d
    total_feedback := fs.length
    average_rating :=
      if rated.length = 0 then none else some (rated.sum / (rated.length : ℚ))
    safety_concern_count := (fs.filter (fun r => r.safety_concerns = some true)).length
    improvement_suggestion_count :=
      (fs.filter (fun r => r.improvement_suggestions ≠ none)).length
    rating_distribution :=
      (List.range 5).map (fun b => (b + 1, ratingBucketCount fs (b + 1))) }

/-- Modelled from the spec: recomputeAnalytics (section 4.7) is not under the
provided sources. It recomputes the analytics row of the organization and
date purely from the immutable rag_feedback rows and overwrites the previous
row of that key. -/
def recomputeAnalytics (org : Option Nat) (d : Nat) (s : CuratorState) :
    CuratorState :=
  { s with analytics :=
      computeAnalyticsRow org d s.feedback ::
        s.analytics.filter (fun a => ¬(a.organization_id = org ∧ a.date = d)) }

/-! ## Concrete fixtures used by the witness theorems -/

/-- A global document (no owning organization). -/
def wDocG : DocumentRow :=
  { id := 1, title := "global guide", content := "calm", category := none,
    source := none, doc_metadata := none, organization_id := none,
    created_at := 0, updated_at := 0 }

/-- A document owned by organization 1. -/
def wDocA : DocumentRow :=
  { id := 2, title := "org one guide", content := "calm", category := none,
    source := none, doc_metadata := none, organization_id := some 1,
    created_at := 0, updated_at := 0 }

/-- A document owned by organization 2. -/
def wDocB : DocumentRow :=
  { id := 3, title := "org two guide", content := "calm", category := none,
    source := none, doc_metadata := none, organization_id := some 2,
    created_at := 0, updated_at := 0 }

/-- A chunk of the global document. -/
def wChunkG : DocumentEmbeddingRow :=
  { id := 1, document_id := 1, chunk_index := 0, chunk_text := "calm",
    embedding := [1], embedding_model := embeddingModel, created_at := 0 }

/-- A chunk of the organization 1 document. -/
def wChunkA : DocumentEmbeddingRow :=
  { id := 2, document_id := 2, chunk_index := 0, chunk_text := "calm",
    embedding := [1], embedding_model := embeddingModel, created_at := 0 }

/-- A chunk of the organization 2 document. -/
def wChunkB : DocumentEmbeddingRow :=
  { id := 3, document_id := 3, chunk_index := 0, chunk_text := "calm",
    embedding := [1], embedding_model := embeddingModel, created_at := 0 }

/-- An index holding one global document and one document for each of two
organizations, with one chunk each. -/
def wIndex : IndexState :=
  { documents := [wDocG, wDocA, wDocB]
    chunks := [wChunkG, wChunkA, wChunkB]
    next_id := 10 }

/-- A short sample document for the indexing witness. -/
def sampleDoc : DocumentRow :=
  { id := 1, title := "calm", content := "breathing slowly helps",
    category := none, source := none, doc_metadata := none,
    organization_id := none, created_at := 3, updated_at := 3 }

/-- The index obtained by indexing the sample document into the empty
index. -/
def sampleIndexState : IndexState :=
  indexDocument { documents := [], chunks := [], next_id := 0 } sampleDoc 7

/-- A message insert that supplies neither a crisis flag nor a language. -/
def wMsgInsert : ConversationMessageInsert :=
  { conversation_id := "conv-1", user_id := 4, role := "user",
    content := "hello", sources := none, user_context := none,
    crisis_detected := none, language := none }

/-- A second message insert on the same conversation. -/
def wMsgInsert2 : ConversationMessageInsert :=
  { conversation_id := "conv-1", user_id := 4, role := "assistant",
    content := "hi there", sources := none, user_context := none,
    crisis_detected := some false, language := some "en" }

/-- A chat store reached by two serialized appends. -/
def wChat : ChatStore :=
  appendMessage (appendMessage { clock := 0, conversations := [], messages := [] } 1 wMsgInsert)
    2 wMsgInsert2

/-- A feedback submission. -/
def wFb1 : FeedbackSubmission :=
  { conversation_id := "conv-1", message_id := 9, user_id := 4,
    organization_id := none, relevance := 5, helpfulness := 4, accuracy := 5,
    clarity := 4, safety := 5, feedback_text := none }

/-- A feedback submission with the same five sub ratings as the first but a
different user, organization and comment. -/
def wFb2 : FeedbackSubmission :=
  { conversation_id := "conv-2", message_id := 11, user_id := 8,
    organization_id := some 3, relevance := 5, helpfulness := 4, accuracy := 5,
    clarity := 4, safety := 5, feedback_text := some "very helpful" }

/-! ## Helper lemmas -/

theorem mem_insertRanked {α : Type} (le : α → α → Bool) (x a : α) :
    ∀ l : List α, a ∈ insertRanked le x l ↔ a = x ∨ a ∈ l := by
  intro l
  induction l with
  | nil => simp [insertRanked]
  | cons y ys ih =>
      by_cases h : le x y
      · simp [insertRanked, h]
      · simp [insertRanked, h, ih]
        tauto

theorem mem_sortRanked {α : Type} (le : α → α → Bool) (a : α) :
    ∀ l : List α, a ∈ sortRanked le l ↔ a ∈ l := by
  intro l
  induction l with
  | nil => simp [sortRanked]
  | cons y ys ih =>
      simp [sortRanked] at ih ⊢
      rw [mem_insertRanked]
      simp [ih]

theorem length_insertRanked {α : Type} (le : α → α → Bool) (x : α) :
    ∀ l : List α, (insertRanked le x l).length = l.length + 1 := by
  intro l
  induction l with
  | nil => simp [insertRanked]
  | cons y ys ih =>
      by_cases h : le x y
      · simp [insertRanked, h]
      · simp [insertRanked, h, ih]

theorem length_sortRanked {α : Type} (le : α → α → Bool) :
    ∀ l : List α, (sortRanked le l).length = l.length := by
  intro l
  induction l with
  | nil => rfl
  | cons y ys ih =>
      simp [sortRanked] at ih ⊢
      rw [length_insertRanked, ih]

theorem filter_idem {α : Type} (p : α → Bool) (l : List α) :
    (l.filter p).filter p = l.filter p := by
  rw [List.filter_filter]
  simp

theorem mkChunks_document_id (f d : Nat) (m : String) (n : Nat) :
    ∀ (ts : List String) (idx : Nat) (c : DocumentEmbeddingRow),
      c ∈ mkChunks f d m n idx ts → c.document_id = d := by
  intro ts
  induction ts with
  | nil => intro idx c hc; simp [mkChunks] at hc
  | cons t rest ih =>
      intro idx c hc
      simp [mkChunks] at hc
      rcases hc with h | h
      · subst h; rfl
      · exact ih _ _ h

theorem mkChunks_chunk_index_map (f d : Nat) (m : String) (n : Nat) :
    ∀ (ts : List String) (idx : Nat),
      (mkChunks f d m n idx ts).map (fun c => c.chunk_index) =
        List.range' idx ts.length := by
  intro ts
  induction ts with
  | nil => intro idx; rfl
  | cons t rest ih =>
      intro idx
      simp [mkChunks, ih, List.range']

theorem mkChunks_boundaries_eq (f1 f2 d : Nat) (m : String) (n1 n2 : Nat) :
    ∀ (ts : List String) (idx : Nat),
      (mkChunks f1 d m n1 idx ts).map (fun c => (c.chunk_index, c.chunk_text)) =
        (mkChunks f2 d m n2 idx ts).map (fun c => (c.chunk_index, c.chunk_text)) := by
  intro ts
  induction ts with
  | nil => intro idx; rfl
  | cons t rest ih => intro idx; simp [mkChunks, ih]

theorem mkChunks_embedding_length (f d : Nat) (m : String) (n : Nat) :
    ∀ (ts : List String) (idx : Nat) (c : DocumentEmbeddingRow),
      c ∈ mkChunks f d m n idx ts → c.embedding.length = embedDim := by
  intro ts
  induction ts with
  | nil => intro idx c hc; simp [mkChunks] at hc
  | cons t rest ih =>
      intro idx c hc
      simp [mkChunks] at hc
      rcases hc with h | h
      · subst h; simp [embed]
      · exact ih _ _ h

theorem chunks_filter_ne_eq (v : Nat) :
    ∀ l : List DocumentEmbeddingRow,
      (l.filter (fun c => c.document_id ≠ v)).filter (fun c => c.document_id = v) = [] := by
  intro l
  induction l with
  | nil => rfl
  | cons x xs ih =>
      by_cases h : x.document_id = v <;> simp [h, ih]

theorem docChunks_indexDocument (s : IndexState) (doc : DocumentRow) (now : Nat) :
    docChunks (indexDocument s doc now) doc.id =
      mkChunks s.next_id doc.id embeddingModel now 0
        (splitText chunkWindow chunkStep doc.content) := by
  simp only [docChunks, indexDocument]
  rw [List.filter_append, chunks_filter_ne_eq, List.nil_append]
  exact List.filter_eq_self.2 (fun c hc => by
    simp [mkChunks_document_id _ _ _ _ _ _ c hc])

theorem chat_reachable_invariant (s : ChatStore) (h : ReachableChat s) :
    (∀ m ∈ s.messages, m.created_at ≤ s.clock) ∧
    List.Pairwise (fun a b => a.created_at ≤ b.created_at) s.messages := by
  induction h with
  | init n0 => simp
  | append s dt i hr ih =>
      obtain ⟨hb, hp⟩ := ih
      constructor
      · intro m hm
        simp only [appendMessage, List.mem_append, List.mem_singleton] at hm
        rcases hm with h1 | h2
        · exact le_trans (hb m h1) (Nat.le_add_right _ _)
        · subst h2
          simp [appendMessage, storeConversationMessage]
      · simp only [appendMessage]
        rw [List.pairwise_append]
        refine ⟨hp, List.pairwise_singleton _ _, ?_⟩
        intro a ha b hbm
        rw [List.mem_singleton] at hbm
        subst hbm
        simp only [storeConversationMessage]
        exact le_trans (hb a ha) (Nat.le_add_right _ _)

/-! ## Claim theorems -/

/-- C9: the rag_feedback schema admits rows in which all five sub ratings,
the overall rating and the safety concern flag are null; only the feedback
id, conversation id, message id, user id and timestamps are required. -/
theorem c9_rag_feedback_admits_null_ratings :
    ∃ r : RagFeedbackRow,
      r.id = "fb-1" ∧ r.conversation_id = "conv-1" ∧ r.message_id = 7 ∧
      r.user_id = 4 ∧
      r.relevance_rating = none ∧ r.helpfulness_rating = none ∧
      r.accuracy_rating = none ∧ r.clarity_rating = none ∧
      r.safety_rating = none ∧ r.overall_rating = none ∧
      r.safety_concerns = none := by
  refine ⟨{ id := "fb-1", conversation_id := "conv-1", message_id := 7,
            user_id := 4, organization_id := none, relevance_rating := none,
            helpfulness_rating := none, accuracy_rating := none,
            clarity_rating := none, safety_rating := none,
            overall_rating := none, feedback_text := none,
            improvement_suggestions := none, query_intent := none,
            emotional_state := none, crisis_level := none,
            safety_concerns := none, response_time_ms := none,
            documents_retrieved := none, retrieval_method := none,
            model_version := none, created_at := 0, updated_at := 0 }, ?_⟩
  simp

/-- C10: every stored conversation message carries a definite crisis flag
and language; when the insert supplies neither, the stored row has
crisis_detected false and language en (the schema defaults of the two NOT
NULL columns). -/
theorem c10_message_crisis_and_language_defaults (id now : Nat)
    (i : ConversationMessageInsert) (hc : i.crisis_detected = none)
    (hl : i.language = none) :
    (storeConversationMessage id now i).crisis_detected = false ∧
    (storeConversationMessage id now i).language = "en" := by
  simp [storeConversationMessage, hc, hl]

theorem c10_message_crisis_and_language_defaults_witness :
    wMsgInsert.crisis_detected = none ∧ wMsgInsert.language = none ∧
    ((storeConversationMessage 1 5 wMsgInsert).crisis_detected = false ∧
      (storeConversationMessage 1 5 wMsgInsert).language = "en") :=
  ⟨rfl, rfl, c10_message_crisis_and_language_defaults 1 5 wMsgInsert rfl rfl⟩

/-- C6: overall_rating is a deterministic function of the five sub ratings
alone; two submissions with pairwise equal sub ratings receive equal overall
ratings, whatever their other fields, ids and submission times. -/
theorem c6_overall_rating_deterministic (id1 id2 : String) (n1 n2 : Nat)
    (f1 f2 : FeedbackSubmission)
    (h1 : f1.relevance = f2.relevance) (h2 : f1.helpfulness = f2.helpfulness)
    (h3 : f1.accuracy = f2.accuracy) (h4 : f1.clarity = f2.clarity)
    (h5 : f1.safety = f2.safety) :
    (submitFeedback id1 n1 f1).overall_rating =
      (submitFeedback id2 n2 f2).overall_rating := by
  simp [submitFeedback, h1, h2, h3, h4, h5]

theorem c6_overall_rating_deterministic_witness :
    wFb1.relevance = wFb2.relevance ∧ wFb1.helpfulness = wFb2.helpfulness ∧
    wFb1.accuracy = wFb2.accuracy ∧ wFb1.clarity = wFb2.clarity ∧
    wFb1.safety = wFb2.safety ∧
    (submitFeedback "fb-a" 10 wFb1).overall_rating =
      (submitFeedback "fb-b" 20 wFb2).overall_rating :=
  ⟨rfl, rfl, rfl, rfl, rfl,
    c6_overall_rating_deterministic "fb-a" "fb-b" 10 20 wFb1 wFb2 rfl rfl rfl rfl rfl⟩

/-- C7: recomputing the analytics of an organization and date twice in a row,
with the feedback rows unchanged in between, leaves the curator state
unchanged: the recomputation is idempotent because it derives purely from the
immutable feedback rows and overwrites its own output row. -/
theorem c7_recompute_analytics_idempotent (org : Option Nat) (d : Nat)
    (s : CuratorState) :
    recomputeAnalytics org d (recomputeAnalytics org d s) =
      recomputeAnalytics org d s := by
  simp only [recomputeAnalytics]
  congr 1
  rw [List.filter_cons]
  have hhead : (decide ¬((computeAnalyticsRow org d s.feedback).organization_id = org ∧
      (computeAnalyticsRow org d s.feedback).date = d)) = false := by
    simp [computeAnalyticsRow]
  rw [hhead]
  simp [filter_idem]

/-- C2: the input text I want to kill myself always produces a crisis turn:
for every generation capability, document corpus, organization scope and
history, the orchestrator skips retrieval and generation and returns the
fixed safety resource response with crisis_detected true and mode crisis. -/
theorem c2_crisis_input_overrides_corpus (gen : String → Option String)
    (s : IndexState) (scope : Nat) (history : List ConversationMessageRow) :
    handleTurn gen s scope history "I want to kill myself" =
      { response := safetyResourceResponse, sources := [],
        crisis_detected := true, mode := "crisis" } := by
  have h : (classify "I want to kill myself").1 = CrisisLevel.high := by decide
  unfold handleTurn
  rw [if_pos h]

/-- C5: when the generation capability fails, a non crisis turn still returns
a non empty response: the deterministic rule based template, with mode
rule_based_fallback, and the failure is surfaced only through that mode. -/
theorem c5_generation_failure_falls_back (s : IndexState) (scope : Nat)
    (history : List ConversationMessageRow) (userText : String)
    (h : ¬ (classify userText).1 = CrisisLevel.high) :
    (handleTurn (fun _ => none) s scope history userText).mode =
      "rule_based_fallback" ∧
    (handleTurn (fun _ => none) s scope history userText).response =
      fallbackResponse ∧
    fallbackResponse ≠ "" := by
  have hf : ¬ (classify fallbackResponse).1 = CrisisLevel.high := by decide
  unfold handleTurn
  simp [draftOrFallback, h, hf]
  decide

theorem c5_generation_failure_falls_back_witness :
    ¬ ((classify "hello").1 = CrisisLevel.high) ∧
    ((handleTurn (fun _ => none) { documents := [], chunks := [], next_id := 0 }
        1 [] "hello").mode = "rule_based_fallback" ∧
      (handleTurn (fun _ => none) { documents := [], chunks := [], next_id := 0 }
        1 [] "hello").response = fallbackResponse ∧
      fallbackResponse ≠ "") := by
  have h : ¬ ((classify "hello").1 = CrisisLevel.high) := by decide
  exact ⟨h, c5_generation_failure_falls_back _ 1 [] "hello" h⟩

/-- C1: every chunk returned by a retrieval call with organization scope
scope belongs to a global document or to a document owned by scope, and the
result length is the minimum of k and the number of in scope candidates, so
excluded candidates never under fill the result. -/
theorem c1_retrieval_scope_filtered (s : IndexState) (q : List ℚ)
    (scope k : Nat) (c : DocumentEmbeddingRow)
    (hc : c ∈ retrieve s q scope k) :
    (docOrg s c.document_id = some none ∨
      docOrg s c.document_id = some (some scope)) ∧
    (retrieve s q scope k).length =
      min k ((s.chunks.filter (inScope s scope)).length) := by
  constructor
  · have h1 : c ∈ sortRanked (rankLE s q) (s.chunks.filter (inScope s scope)) :=
      List.mem_of_mem_take hc
    have h2 : c ∈ s.chunks.filter (inScope s scope) :=
      (mem_sortRanked _ _ _).1 h1
    have h3 : inScope s scope c = true := (List.mem_filter.1 h2).2
    unfold inScope at h3
    split at h3
    case h_1 d heq =>
      have hor : d.organization_id = none ∨ d.organization_id = some scope := by
        simpa using h3
      unfold docOrg
      rw [heq]
      rcases hor with h | h <;> simp [h]
    case h_2 heq => simp at h3
  · unfold retrieve
    rw [List.length_take, length_sortRanked]

theorem c1_retrieval_scope_filtered_witness :
    wChunkG ∈ retrieve wIndex [1] 1 5 ∧
    ((docOrg wIndex wChunkG.document_id = some none ∨
        docOrg wIndex wChunkG.document_id = some (some 1)) ∧
      (retrieve wIndex [1] 1 5).length =
        min 5 ((wIndex.chunks.filter (inScope wIndex 1)).length)) := by
  have hret : retrieve wIndex [1] 1 5 = [wChunkG, wChunkA] := by
    simp [retrieve, sortRanked, insertRanked, rankLE, inScope, docUpdatedAt,
      dotProduct, wIndex, wChunkG, wChunkA, wChunkB, wDocG, wDocA, wDocB,
      List.filter, List.find?]
  have hmem : wChunkG ∈ retrieve wIndex [1] 1 5 := by
    rw [hret]
    exact List.mem_cons_self _ _
  exact ⟨hmem, c1_retrieval_scope_filtered wIndex [1] 1 5 wChunkG hmem⟩

/-- C3: indexing a document with window 200 and overlap 50 persists chunks
whose chunk_index values are exactly the contiguous range from 0 to the
number of split pieces minus one, and re-indexing the same document text
with the same configuration reproduces identical chunk boundaries. -/
theorem c3_chunk_indices_contiguous_and_reindex_deterministic
    (s : IndexState) (doc : DocumentRow) (now now2 : Nat) :
    (docChunks (indexDocument s doc now) doc.id).map (fun c => c.chunk_index) =
      List.range (splitText chunkWindow chunkStep doc.content).length ∧
    chunkBoundaries (indexDocument (indexDocument s doc now) doc now2) doc.id =
      chunkBoundaries (indexDocument s doc now) doc.id := by
  constructor
  · rw [docChunks_indexDocument, mkChunks_chunk_index_map, List.range_eq_range']
  · unfold chunkBoundaries
    rw [docChunks_indexDocument, docChunks_indexDocument]
    exact mkChunks_boundaries_eq _ _ _ _ _ _ _ _

/-- C4: in every reachable index state, every persisted chunk carries an
embedding vector whose length is the configured embedding dimension, 384 for
all-MiniLM-L6-v2. -/
theorem c4_chunk_embedding_dimension (s : IndexState) (h : ReachableIndex s) :
    ∀ c ∈ s.chunks, c.embedding.length = embedDim := by
  induction h with
  | init => intro c hc; simp at hc
  | index s doc now hr ih =>
      intro c hc
      simp only [indexDocument, List.mem_append] at hc
      rcases hc with h1 | h2
      · exact ih c (List.mem_of_mem_filter h1)
      · exact mkChunks_embedding_length _ _ _ _ _ _ c h2
  | remove s docId hr ih =>
      intro c hc
      simp only [deleteDocument] at hc
      exact ih c (List.mem_of_mem_filter hc)

theorem c4_chunk_embedding_dimension_witness :
    ReachableIndex sampleIndexState ∧
    (sampleIndexState.chunks.map (fun c => c.embedding.length)).headD 0 = embedDim := by
  have hreach : ReachableIndex sampleIndexState :=
    ReachableIndex.index _ sampleDoc 7 ReachableIndex.init
  refine ⟨hreach, ?_⟩
  have h := c4_chunk_embedding_dimension sampleIndexState hreach
  have hch : sampleIndexState.chunks =
      [{ id := 0, document_id := 1, chunk_index := 0,
         chunk_text := "breathing slowly helps",
         embedding := embed "breathing slowly helps",
         embedding_model := embeddingModel, created_at := 7 }] := by rfl
  rw [hch]
  simp only [List.map_cons, List.map_nil, List.headD_cons]
  exact h _ (by rw [hch]; exact List.mem_cons_self _ _)

/-- C8: in every reachable chat store, for every conversation, whenever one
of its messages precedes another in stored order its creation timestamp is
at most the creation timestamp of the later one. -/
theorem c8_message_order_monotone (s : ChatStore) (cid : String)
    (h : ReachableChat s) :
    List.Pairwise (fun a b => a.created_at ≤ b.created_at)
      (s.messages.filter (fun m => m.conversation_id = cid)) :=
  List.Pairwise.sublist (List.filter_sublist _) (chat_reachable_invariant s h).2

theorem c8_message_order_monotone_witness :
    ReachableChat wChat ∧
    List.Pairwise (fun a b => a.created_at ≤ b.created_at)
      (wChat.messages.filter (fun m => m.conversation_id = "conv-1")) := by
  have hreach : ReachableChat wChat :=
    ReachableChat.append _ 2 wMsgInsert2
      (ReachableChat.append _ 1 wMsgInsert (ReachableChat.init 0))
  exact ⟨hreach, c8_message_order_monotone wChat "conv-1" hreach⟩

end Mindease
